import Mathlib

/-!
# Screenshot-Holmes: shallow embedding and verification

A Lean 4 embedding of the core logic of the Screenshot-Holmes repository:
the screenshot filename classifier and the batch rename pipeline of
`src/app.py`, the tile-based cost estimator of `src/utils/CountPngs.py`,
and the metadata reader of `src/utils/checkmetatags.py`.  External
capabilities (the OpenAI vision/naming calls, and the Pillow PNG container)
are modelled as oracle parameters; everything else is translated directly
from the Python source.
-/

namespace Holmes

/-! ## String helpers: Python `str.endswith`, `in`, `.lower()`, `\s` -/

/-- Python `\s` on the ASCII range: the whitespace characters removed by
`re.sub(r'\s+', '', ...)` in `is_screenshot`. -/
def isSpaceChar (c : Char) : Bool :=
  c = ' ' || c = '\t' || c = '\n' || c = '\r' || c = '\x0b' || c = '\x0c'

/-- Boolean prefix test on character lists (Python `startswith`, used to
build `endswith` and `in`). -/
def isPrefixB : List Char → List Char → Bool
  | [], _ => true
  | _ :: _, [] => false
  | a :: as, b :: bs => a = b && isPrefixB as bs

/-- Python `s.endswith(suffix)` on character lists. -/
def endswithB (s suffix : List Char) : Bool :=
  isPrefixB suffix.reverse s.reverse

/-- Python `sub in s` (substring containment) on character lists. -/
def containsB (s sub : List Char) : Bool :=
  match s with
  | [] => isPrefixB sub []
  | _ :: t => isPrefixB sub s || containsB t sub

/-! ## `is_screenshot` (src/app.py, lines 124-153) -/

/-- The indicator substrings of `is_screenshot`
(`screenshot_indicators` in src/app.py line 150). -/
def screenshot_indicators : List (List Char) :=
  ["screenshot".toList, "screen_shot".toList, "screenclip".toList,
   "capture".toList, "snip".toList]

/-- `clean_name = re.sub(r'\s+', '', filename.lower())`
(src/app.py line 143): lower-case every character, then drop whitespace. -/
def clean_name (filename : String) : List Char :=
  (filename.toList.map Char.toLower).filter (fun c => !(isSpaceChar c))

/-- `is_screenshot` (src/app.py lines 124-153): the cleaned name must end
in `.png`, and then any indicator must occur in the cleaned name. -/
def is_screenshot (filename : String) : Bool :=
  if !(endswithB (clean_name filename) ".png".toList) then false
  else screenshot_indicators.any (fun ind => containsB (clean_name filename) ind)

/-! ## Cost estimator (src/utils/CountPngs.py) -/

/-- `PRICE_PER_MILLION_TOKENS = 0.15` (CountPngs.py line 21). -/
def PRICE_PER_MILLION_TOKENS : ℚ := 15 / 100

/-- `BASE_TOKENS_PER_IMAGE = 2833` (CountPngs.py line 22). -/
def BASE_TOKENS_PER_IMAGE : ℤ := 2833

/-- `TILE_TOKENS = 5667` (CountPngs.py line 23). -/
def TILE_TOKENS : ℤ := 5667

/-- `TILE_SIZE_PIXELS = 512` (CountPngs.py line 24). -/
def TILE_SIZE_PIXELS : ℤ := 512

/-- `determine_tiles` (CountPngs.py lines 76-90):
`math.ceil(width / tile_size) * math.ceil(height / tile_size)` with the
default tile size of 512. -/
def determine_tiles (width height : ℤ) : ℤ :=
  ⌈(width : ℚ) / (TILE_SIZE_PIXELS : ℚ)⌉ * ⌈(height : ℚ) / (TILE_SIZE_PIXELS : ℚ)⌉

/-- `calculate_tokens_per_image` (CountPngs.py lines 92-102). -/
def calculate_tokens_per_image (tiles : ℤ) : ℤ :=
  BASE_TOKENS_PER_IMAGE + TILE_TOKENS * tiles

/-- `calculate_cost` (CountPngs.py lines 104-114):
`(total_tokens / 1_000_000) * PRICE_PER_MILLION_TOKENS`. -/
def calculate_cost (total_tokens : ℤ) : ℚ :=
  ((total_tokens : ℚ) / 1000000) * PRICE_PER_MILLION_TOKENS

/-- Per-file record produced inside the loop of `estimate_costs_and_savings`
(CountPngs.py lines 173-204). -/
structure CostEstimate where
  original_tiles : ℤ
  original_tokens : ℤ
  original_cost : ℚ
  halved_width_px : ℤ
  halved_height_px : ℤ
  halved_tiles : ℤ
  halved_tokens : ℤ
  halved_cost : ℚ
  savings : ℚ
  deriving Repr, DecidableEq

/-- One iteration of the loop body of `estimate_costs_and_savings`
(CountPngs.py lines 173-204), for a file of the given dimensions.
Python `//` is floor division; `/` on `ℤ` rounds the same way for the
positive divisor 2. -/
def estimate_file (width_px height_px : ℤ) : CostEstimate :=
  let original_tiles := determine_tiles width_px height_px
  let original_tokens := calculate_tokens_per_image original_tiles
  let original_cost := calculate_cost original_tokens
  let halved_width := max 1 (width_px / 2)
  let halved_height := max 1 (height_px / 2)
  let halved_tiles := determine_tiles halved_width halved_height
  let halved_tokens := calculate_tokens_per_image halved_tiles
  let halved_cost := calculate_cost halved_tokens
  { original_tiles := original_tiles
    original_tokens := original_tokens
    original_cost := original_cost
    halved_width_px := halved_width
    halved_height_px := halved_height
    halved_tiles := halved_tiles
    halved_tokens := halved_tokens
    halved_cost := halved_cost
    savings := original_cost - halved_cost }

/-- The running totals of `estimate_costs_and_savings`
(CountPngs.py lines 170-191): total original cost and total halved cost
over a list of (width, height) pairs. -/
def cost_totals : List (ℤ × ℤ) → ℚ × ℚ
  | [] => (0, 0)
  | (w, h) :: rest =>
    let e := estimate_file w h
    let t := cost_totals rest
    (e.original_cost + t.1, e.halved_cost + t.2)

/-- `estimate_costs_and_savings` (CountPngs.py lines 160-207): returns
`(total_original_cost, total_halved_cost, total_savings)` where
`total_savings = total_original_cost - total_halved_cost` (line 206). -/
def estimate_costs_and_savings (data : List (ℤ × ℤ)) : ℚ × ℚ × ℚ :=
  let t := cost_totals data
  (t.1, t.2, t.1 - t.2)

/-! ## The rename pipeline (src/app.py `process_screenshots`)

The OpenAI calls (`get_image_content`, `get_new_name`) and the Pillow PNG
container are external capabilities; they are modelled as oracle fields of
an `Env`.  The folder namespace is an association list from filenames to
file data; `os.rename` follows POSIX semantics (silently replacing an
existing destination), which is the platform behaviour of the source. -/

/-- A PNG file as the pipeline sees it: opaque pixel bytes plus the PNG
text chunks.  Modelled from the spec: the Pillow container (PngInfo text
chunks written by `Image.save`, read back through `Image.info`) is an
external library; §4.4 of the spec describes it as a keyed UTF-8 text
field under key `Description` that reads back byte-identically. -/
structure FileData where
  bytes : ℕ
  textChunks : List (String × String)
  deriving Repr, DecidableEq

/-- A folder namespace: filenames to file data. -/
abbrev Folder := List (String × FileData)

/-- Look a filename up in a folder. -/
def lookupFile : Folder → String → Option FileData
  | [], _ => none
  | (n, d) :: rest, name => if n = name then some d else lookupFile rest name

/-- Remove a filename from a folder. -/
def removeFile : Folder → String → Folder
  | [], _ => []
  | (n, d) :: rest, name =>
    if n = name then removeFile rest name else (n, d) :: removeFile rest name

/-- Create or replace a file in the folder. -/
def setFile (folder : Folder) (name : String) (d : FileData) : Folder :=
  removeFile folder name ++ [(name, d)]

/-- Look a key up in a chunk list (Python `dict.get`). -/
def lookupChunk : List (String × String) → String → Option String
  | [], _ => none
  | (k, v) :: rest, key => if k = key then some v else lookupChunk rest key

/-- The external capabilities of the pipeline.  `extract` models
`get_image_content` (description, prompt/completion/total tokens; `none` is
a raised exception), `getNewName` models `get_new_name`, and `metaSaveOk`
tells whether the Pillow `img.save` inside `add_metadata` succeeds. -/
structure Env where
  extract : FileData → Option (String × ℕ × ℕ × ℕ)
  getNewName : String → Option String
  metaSaveOk : FileData → Bool

/-- The text chunks written by `add_metadata`'s fresh `PngInfo`: exactly one
`Description` entry. -/
def setDescription (fd : FileData) (content : String) : FileData :=
  { fd with textChunks := [("Description", content)] }

/-- `add_metadata` (src/app.py lines 111-122): rewrites the container in
place with a `Description` text chunk; ANY exception (including a failed
save) is caught and printed, so the caller never sees a failure and the
file is left as it was. -/
def add_metadata (env : Env) (folder : Folder) (image_path : String)
    (content : String) : Folder :=
  match lookupFile folder image_path with
  | none => folder
  | some fd =>
    if env.metaSaveOk fd then setFile folder image_path (setDescription fd content)
    else folder

/-- One row of the `processed_files` list (src/app.py lines 168-174). -/
structure ProcessedEntry where
  original_path : String
  new_name : String
  description : String
  prompt_tokens : ℕ
  total_tokens : ℕ
  deriving Repr, DecidableEq

/-- Result of handling one directory entry: the folder afterwards, the
appended row (if any), and how many calls were made to the content
extraction and naming capabilities. -/
structure StepOutcome where
  folder : Folder
  entry : Option ProcessedEntry
  extract_calls : ℕ
  naming_calls : ℕ
  deriving Repr, DecidableEq

/-- The body of the `for` loop of `process_screenshots` (src/app.py lines
157-178) for a single directory entry, with its `try/except`: a raised
exception from any stage leaves the folder as that stage left it and
appends no row. -/
def process_one (env : Env) (folder : Folder) (filename : String) : StepOutcome :=
  if is_screenshot filename then
    match lookupFile folder filename with
    | none => ⟨folder, none, 0, 0⟩
    | some fd =>
      match env.extract fd with
      | none => ⟨folder, none, 1, 0⟩
      | some (content, pt, _ct, tt) =>
        match env.getNewName content with
        | none => ⟨folder, none, 1, 1⟩
        | some new_name =>
          let folder1 := add_metadata env folder filename content
          let new_file := new_name ++ ".png"
          match lookupFile folder1 filename with
          | none => ⟨folder1, none, 1, 1⟩
          | some fd1 =>
            ⟨setFile (removeFile folder1 filename) new_file fd1,
             some ⟨filename, new_file, content, pt, tt⟩, 1, 1⟩
  else ⟨folder, none, 0, 0⟩

/-- `process_screenshots` (src/app.py lines 155-180) over the `os.listdir`
snapshot, returning the final folder, the `processed_files` rows, and the
total number of calls to each capability. -/
def process_screenshots (env : Env) (folder : Folder) :
    List String → Folder × List ProcessedEntry × ℕ × ℕ
  | [] => (folder, [], 0, 0)
  | f :: rest =>
    let s := process_one env folder f
    let r := process_screenshots env s.folder rest
    (r.1, (s.entry.toList ++ r.2.1), s.extract_calls + r.2.2.1,
      s.naming_calls + r.2.2.2)

/-- Reading the `Description` tag back (src/utils/checkmetatags.py lines
13-15: `Image.open`, then `img.info.get("Description", ...)`); `none` when
the file does not exist or carries no such chunk. -/
def read_description (folder : Folder) (path : String) : Option String :=
  match lookupFile folder path with
  | none => none
  | some fd => lookupChunk fd.textChunks "Description"

/-- `read_metadata_from_folder` (src/utils/checkmetatags.py lines 4-19):
for every `.png` entry, the description or the default string. -/
def read_metadata_from_folder (folder : Folder) : List (String × String) :=
  folder.filterMap fun p =>
    if endswithB (p.1.toList.map Char.toLower) ".png".toList then
      some (p.1, (lookupChunk p.2.textChunks "Description").getD "No description found")
    else none

/-! ## Computable form of `determine_tiles` -/

/-- `determine_tiles` in computable integer arithmetic:
`ceil(a / b) = -((-a) fdiv b)` for a positive divisor. -/
theorem determine_tiles_eq (w h : ℤ) :
    determine_tiles w h = (-(-w / 512)) * (-(-h / 512)) := by
  unfold determine_tiles TILE_SIZE_PIXELS
  rw [show (((512:ℤ)):ℚ) = ((512:ℕ):ℚ) by norm_num]
  rw [show ((w:ℚ) / ((512:ℕ):ℚ)) = -(((-w:ℤ):ℚ) / ((512:ℕ):ℚ)) by push_cast; ring]
  rw [show ((h:ℚ) / ((512:ℕ):ℚ)) = -(((-h:ℤ):ℚ) / ((512:ℕ):ℚ)) by push_cast; ring]
  rw [Int.ceil_neg, Int.ceil_neg, Rat.floor_intCast_div_natCast,
    Rat.floor_intCast_div_natCast]
  norm_num

/-! ## Helper lemmas -/

theorem isPrefixB_iff (n h : List Char) : isPrefixB n h = true ↔ n <+: h := by
  induction n generalizing h with
  | nil => simp [isPrefixB]
  | cons a as ih =>
    cases h with
    | nil => simp [isPrefixB]
    | cons b bs => simp [isPrefixB, List.cons_prefix_cons, ih]

theorem endswithB_iff (s suf : List Char) : endswithB s suf = true ↔ suf <:+ s := by
  rw [endswithB, isPrefixB_iff, List.reverse_prefix]

theorem containsB_iff (s sub : List Char) : containsB s sub = true ↔ sub <:+: s := by
  induction s with
  | nil => simp [containsB, isPrefixB_iff]
  | cons c t ih => simp [containsB, isPrefixB_iff, ih, List.infix_cons_iff]

theorem lookupFile_removeFile_self (f : Folder) (n : String) :
    lookupFile (removeFile f n) n = none := by
  induction f with
  | nil => rfl
  | cons p rest ih =>
    obtain ⟨m, d⟩ := p
    by_cases h : m = n <;> simp [removeFile, lookupFile, h, ih]

theorem lookupFile_removeFile_other (f : Folder) (n m : String) (h : m ≠ n) :
    lookupFile (removeFile f n) m = lookupFile f m := by
  induction f with
  | nil => rfl
  | cons p rest ih =>
    obtain ⟨k, d⟩ := p
    by_cases hk : k = n
    · subst hk
      have hnm : ¬k = m := fun hh => h hh.symm
      simp [removeFile, lookupFile, ih, hnm]
    · by_cases hm : k = m
      · subst hm
        simp [removeFile, lookupFile, hk]
      · simp [removeFile, lookupFile, hk, hm, ih]

theorem lookupFile_append_right (l : Folder) (n : String) (d : FileData)
    (h : lookupFile l n = none) : lookupFile (l ++ [(n, d)]) n = some d := by
  induction l with
  | nil => simp [lookupFile]
  | cons p rest ih =>
    obtain ⟨k, e⟩ := p
    by_cases hk : k = n
    · simp [lookupFile, hk] at h
    · simp only [lookupFile, List.cons_append, hk, if_false] at h ⊢
      exact ih h

theorem lookupFile_setFile_self (f : Folder) (n : String) (d : FileData) :
    lookupFile (setFile f n d) n = some d :=
  lookupFile_append_right _ n d (lookupFile_removeFile_self f n)

theorem lookupFile_append_left (l l₂ : Folder) (m : String)
    (h : lookupFile l₂ m = none) : lookupFile (l ++ l₂) m = lookupFile l m := by
  induction l with
  | nil => simpa [lookupFile] using h
  | cons p rest ih =>
    obtain ⟨k, e⟩ := p
    by_cases hk : k = m <;> simp [lookupFile, hk, ih]

theorem lookupFile_setFile_other (f : Folder) (n m : String) (d : FileData)
    (h : m ≠ n) : lookupFile (setFile f n d) m = lookupFile f m := by
  unfold setFile
  rw [lookupFile_append_left _ _ _ (by simp [lookupFile, h.symm])]
  exact lookupFile_removeFile_other f n m h

theorem lookupFile_add_metadata_self (env : Env) (folder : Folder)
    (path content : String) (fd : FileData)
    (h : lookupFile folder path = some fd) :
    lookupFile (add_metadata env folder path content) path =
      some (if env.metaSaveOk fd then setDescription fd content else fd) := by
  unfold add_metadata
  rw [h]
  by_cases hm : env.metaSaveOk fd <;> simp [hm, lookupFile_setFile_self, h]

theorem lookupFile_add_metadata_other (env : Env) (folder : Folder)
    (path content m : String) (h : m ≠ path) :
    lookupFile (add_metadata env folder path content) m = lookupFile folder m := by
  unfold add_metadata
  cases hl : lookupFile folder path with
  | none => rfl
  | some fd =>
    by_cases hm : env.metaSaveOk fd <;>
      simp [hm, lookupFile_setFile_other _ _ _ _ h]

/-! ## Monotonicity of the estimator -/

theorem ceil_tile_mono {a b : ℤ} (hab : a ≤ b) :
    ⌈(a : ℚ) / (TILE_SIZE_PIXELS : ℚ)⌉ ≤ ⌈(b : ℚ) / (TILE_SIZE_PIXELS : ℚ)⌉ := by
  have h : (a : ℚ) / (TILE_SIZE_PIXELS : ℚ) ≤ (b : ℚ) / (TILE_SIZE_PIXELS : ℚ) := by
    unfold TILE_SIZE_PIXELS
    gcongr
  exact Int.ceil_le_ceil h

theorem ceil_tile_pos {a : ℤ} (ha : 0 < a) :
    0 < ⌈(a : ℚ) / (TILE_SIZE_PIXELS : ℚ)⌉ := by
  apply Int.ceil_pos.2
  apply div_pos
  · exact_mod_cast ha
  · unfold TILE_SIZE_PIXELS; norm_num

theorem determine_tiles_pos {a b : ℤ} (ha : 0 < a) (hb : 0 < b) :
    0 < determine_tiles a b :=
  mul_pos (ceil_tile_pos ha) (ceil_tile_pos hb)

theorem determine_tiles_mono {a b c d : ℤ} (ha : 0 < a) (hc : 0 < c)
    (hab : a ≤ b) (hcd : c ≤ d) : determine_tiles a c ≤ determine_tiles b d := by
  unfold determine_tiles
  exact mul_le_mul (ceil_tile_mono hab) (ceil_tile_mono hcd)
    (ceil_tile_pos hc).le (le_trans (ceil_tile_pos ha).le (ceil_tile_mono hab))

theorem calculate_tokens_per_image_mono {t u : ℤ} (h : t ≤ u) :
    calculate_tokens_per_image t ≤ calculate_tokens_per_image u := by
  unfold calculate_tokens_per_image TILE_TOKENS
  have : (5667 : ℤ) * t ≤ 5667 * u := by
    exact mul_le_mul_of_nonneg_left h (by norm_num)
  omega

theorem calculate_cost_mono {t u : ℤ} (h : t ≤ u) :
    calculate_cost t ≤ calculate_cost u := by
  unfold calculate_cost PRICE_PER_MILLION_TOKENS
  gcongr


/-- The per-file comparison between the halved and the original estimate. -/
theorem estimate_file_halved_le {w h : ℤ} (hw : 0 < w) (hh : 0 < h) :
    (estimate_file w h).halved_tiles ≤ (estimate_file w h).original_tiles ∧
      (estimate_file w h).halved_tokens ≤ (estimate_file w h).original_tokens ∧
      (estimate_file w h).halved_cost ≤ (estimate_file w h).original_cost ∧
      0 ≤ (estimate_file w h).savings := by
  have hw2 : max 1 (w / 2) ≤ w := by
    apply max_le _ _
    · omega
    · omega
  have hh2 : max 1 (h / 2) ≤ h := by
    apply max_le _ _
    · omega
    · omega
  have hw1 : (0 : ℤ) < max 1 (w / 2) := lt_of_lt_of_le one_pos (le_max_left _ _)
  have hh1 : (0 : ℤ) < max 1 (h / 2) := lt_of_lt_of_le one_pos (le_max_left _ _)
  have htiles : determine_tiles (max 1 (w / 2)) (max 1 (h / 2)) ≤ determine_tiles w h :=
    determine_tiles_mono hw1 hh1 hw2 hh2
  have htok := calculate_tokens_per_image_mono htiles
  have hcost := calculate_cost_mono htok
  refine ⟨htiles, htok, hcost, ?_⟩
  simpa [estimate_file] using sub_nonneg.2 hcost

/-- Total halved cost never exceeds total original cost over a batch. -/
theorem cost_totals_le (data : List (ℤ × ℤ))
    (hdata : ∀ p ∈ data, 0 < p.1 ∧ 0 < p.2) :
    (cost_totals data).2 ≤ (cost_totals data).1 := by
  induction data with
  | nil => simp [cost_totals]
  | cons p rest ih =>
    obtain ⟨w, h⟩ := p
    obtain ⟨hw, hh⟩ := hdata (w, h) (List.mem_cons_self _ _)
    have hfile := (estimate_file_halved_le hw hh).2.2.1
    have hrest := ih fun q hq => hdata q (List.mem_cons_of_mem _ hq)
    simp only [cost_totals]
    exact add_le_add (by simpa [estimate_file] using hfile) hrest

/-! ## The claims -/

/-- C5: for every filename, `is_screenshot` is true iff the lower-cased,
whitespace-stripped form of the name ends in `.png` and contains at least
one indicator substring from the configured set. -/
theorem C5_is_screenshot_iff (filename : String) :
    is_screenshot filename = true ↔
      (".png".toList <:+ clean_name filename ∧
        ∃ ind ∈ screenshot_indicators, ind <:+: clean_name filename) := by
  by_cases hpng : endswithB (clean_name filename) ".png".toList = true
  · rw [is_screenshot,
      show (!(endswithB (clean_name filename) ".png".toList)) = false from by
        rw [hpng]; rfl]
    simp only [Bool.false_eq_true, if_false, List.any_eq_true]
    constructor
    · rintro ⟨ind, hmem, hc⟩
      exact ⟨(endswithB_iff _ _).1 hpng, ind, hmem, (containsB_iff _ _).1 hc⟩
    · rintro ⟨-, ind, hmem, hc⟩
      exact ⟨ind, hmem, (containsB_iff _ _).2 hc⟩
  · have hpf : endswithB (clean_name filename) ".png".toList = false := by
      cases hE : endswithB (clean_name filename) ".png".toList
      · rfl
      · exact absurd hE hpng
    rw [is_screenshot,
      show (!(endswithB (clean_name filename) ".png".toList)) = true from by
        rw [hpf]; rfl]
    simp only [if_true]
    constructor
    · intro hh
      exact absurd hh (by simp)
    · rintro ⟨hsuf, -⟩
      exact absurd ((endswithB_iff _ _).2 hsuf) hpng

/-- C6: for positive dimensions the estimate satisfies
`tiles = ceil(w/512) * ceil(h/512)`, `tokens = 2833 + 5667 * tiles` and
`costUsd = tokens / 1000000 * 0.15`; concretely a 512×512 image needs
1 tile and 8500 tokens, and a 1920×1080 image needs 12 tiles and
70837 tokens. -/
theorem C6_estimate_formulas (w h : ℤ) (_hw : 0 < w) (_hh : 0 < h) :
    ((estimate_file w h).original_tiles = ⌈(w : ℚ) / 512⌉ * ⌈(h : ℚ) / 512⌉ ∧
      (estimate_file w h).original_tokens =
        2833 + 5667 * (estimate_file w h).original_tiles ∧
      (estimate_file w h).original_cost =
        ((estimate_file w h).original_tokens : ℚ) / 1000000 * 0.15) ∧
    (estimate_file 512 512).original_tiles = 1 ∧
    (estimate_file 512 512).original_tokens = 8500 ∧
    (estimate_file 1920 1080).original_tiles = 12 ∧
    (estimate_file 1920 1080).original_tokens = 70837 := by
  refine ⟨⟨?_, ?_, ?_⟩, ?_, ?_, ?_, ?_⟩
  · norm_num [estimate_file, determine_tiles, TILE_SIZE_PIXELS]
  · simp [estimate_file, calculate_tokens_per_image, BASE_TOKENS_PER_IMAGE, TILE_TOKENS]
  · norm_num [estimate_file, calculate_cost, PRICE_PER_MILLION_TOKENS]
  · simp [estimate_file]
    rw [determine_tiles_eq]
    decide
  · simp [estimate_file, calculate_tokens_per_image, BASE_TOKENS_PER_IMAGE, TILE_TOKENS]
    rw [determine_tiles_eq]
    decide
  · simp [estimate_file]
    rw [determine_tiles_eq]
    decide
  · simp [estimate_file, calculate_tokens_per_image, BASE_TOKENS_PER_IMAGE, TILE_TOKENS]
    rw [determine_tiles_eq]
    decide

/-- C6 witness: the theorem applied at the concrete input 512×512. -/
theorem C6_witness :
    (0 : ℤ) < 512 ∧ (estimate_file 512 512).original_tokens = 8500 :=
  ⟨by decide, (C6_estimate_formulas 512 512 (by decide) (by decide)).2.2.1⟩

/-- C7 counterexample: `estimate(-1, 100)` does not fail — no dimension
validation exists anywhere in the estimator — it returns an estimate of
0 tiles and 2833 tokens. -/
theorem C7_counterexample :
    (estimate_file (-1) 100).original_tiles = 0 ∧
      (estimate_file (-1) 100).original_tokens = 2833 := by
  constructor
  · simp only [estimate_file]
    rw [determine_tiles_eq]
    decide
  · simp only [estimate_file, calculate_tokens_per_image, BASE_TOKENS_PER_IMAGE,
      TILE_TOKENS]
    rw [determine_tiles_eq]
    decide

/-- C7 amended: the estimator performs no dimension validation and returns
a full (possibly degenerate) estimate for non-positive dimensions; at
(-1, 100) it reports 0 tiles, the base 2833 tokens, and a *negative*
saving, with no `InvalidDimension` error anywhere. -/
theorem C7_no_dimension_validation :
    estimate_file (-1) 100 =
      { original_tiles := 0
        original_tokens := 2833
        original_cost := 2833 * (15 / 100) / 1000000
        halved_width_px := 1
        halved_height_px := 50
        halved_tiles := 1
        halved_tokens := 8500
        halved_cost := 8500 * (15 / 100) / 1000000
        savings := (2833 - 8500) * (15 / 100) / 1000000 } := by
  have h1 := determine_tiles_eq (-1) 100
  have h2 := determine_tiles_eq (max 1 ((-1 : ℤ) / 2)) (max 1 ((100 : ℤ) / 2))
  norm_num at h1 h2
  simp only [estimate_file, calculate_tokens_per_image, calculate_cost,
    BASE_TOKENS_PER_IMAGE, TILE_TOKENS, PRICE_PER_MILLION_TOKENS,
    CostEstimate.mk.injEq]
  rw [h1]
  norm_num
  rw [h2]
  norm_num

/-- C8: for positive dimensions, the halved variant uses
`max 1 (dim // 2)` in each dimension (so a halved dimension is never 0,
and width 1 halves to 1), and reports
`savings = originalCost - halvedCost`. -/
theorem C8_halved_clamp_and_savings (w h : ℤ) (_hw : 0 < w) (_hh : 0 < h) :
    (estimate_file w h).halved_width_px = max 1 (w / 2) ∧
      (estimate_file w h).halved_height_px = max 1 (h / 2) ∧
      1 ≤ (estimate_file w h).halved_width_px ∧
      1 ≤ (estimate_file w h).halved_height_px ∧
      (estimate_file 1 h).halved_width_px = 1 ∧
      (estimate_file w h).savings =
        (estimate_file w h).original_cost - (estimate_file w h).halved_cost := by
  refine ⟨rfl, rfl, ?_, ?_, ?_, rfl⟩
  · exact le_max_left _ _
  · exact le_max_left _ _
  · simp [estimate_file]

/-- C8 witness: the theorem applied at width 1, height 100. -/
theorem C8_witness :
    (0 : ℤ) < 1 ∧ (estimate_file 1 100).halved_width_px = max 1 ((1 : ℤ) / 2) :=
  ⟨by decide, (C8_halved_clamp_and_savings 1 100 (by decide) (by decide)).1⟩

/-- C10: for positive dimensions the halved estimate never exceeds the
original — tiles, tokens and cost are all monotone under the halving — so
the per-file saving is non-negative, and over a batch of positive-dimension
files the total saving reported by `estimate_costs_and_savings` is
non-negative as well. -/
theorem C10_savings_nonneg (w h : ℤ) (hw : 0 < w) (hh : 0 < h)
    (data : List (ℤ × ℤ)) (hdata : ∀ p ∈ data, 0 < p.1 ∧ 0 < p.2) :
    (estimate_file w h).halved_tiles ≤ (estimate_file w h).original_tiles ∧
      (estimate_file w h).halved_tokens ≤ (estimate_file w h).original_tokens ∧
      (estimate_file w h).halved_cost ≤ (estimate_file w h).original_cost ∧
      0 ≤ (estimate_file w h).savings ∧
      0 ≤ (estimate_costs_and_savings data).2.2 := by
  obtain ⟨h1, h2, h3, h4⟩ := estimate_file_halved_le hw hh
  refine ⟨h1, h2, h3, h4, ?_⟩
  simpa [estimate_costs_and_savings, sub_nonneg] using cost_totals_le data hdata

/-- C1 counterexample: the pre-existing `sales_chart_q1.png` (bytes 2) is
silently overwritten by the renamed screenshot (bytes 1); no `_1` suffix
is ever produced, refuting the collision-avoidance claim. -/
theorem C1_counterexample :
    lookupFile (process_one
        ⟨fun _ => some ("a sales chart", 10, 5, 20),
          fun _ => some "sales_chart_q1", fun _ => true⟩
        [("Screenshot 1.png", ⟨1, []⟩), ("sales_chart_q1.png", ⟨2, []⟩)]
        "Screenshot 1.png").folder "sales_chart_q1.png" =
      some ⟨1, [("Description", "a sales chart")]⟩ ∧
    lookupFile (process_one
        ⟨fun _ => some ("a sales chart", 10, 5, 20),
          fun _ => some "sales_chart_q1", fun _ => true⟩
        [("Screenshot 1.png", ⟨1, []⟩), ("sales_chart_q1.png", ⟨2, []⟩)]
        "Screenshot 1.png").folder "sales_chart_q1_1.png" = none := by
  decide

/-- C1 amended: the rename has no collision handling at all — it always
targets exactly `candidate.png`, replacing whatever file is there, and the
original name disappears. -/
theorem C1_rename_overwrites (env : Env) (folder : Folder)
    (filename c nm : String) (fd d₀ : FileData) (pt ct tt : ℕ)
    (h1 : is_screenshot filename = true)
    (h2 : lookupFile folder filename = some fd)
    (h3 : env.extract fd = some (c, pt, ct, tt))
    (h4 : env.getNewName c = some nm)
    (h5 : env.metaSaveOk fd = true)
    (h6 : filename ≠ nm ++ ".png")
    (_h7 : lookupFile folder (nm ++ ".png") = some d₀) :
    (process_one env folder filename).entry =
        some ⟨filename, nm ++ ".png", c, pt, tt⟩ ∧
      lookupFile (process_one env folder filename).folder (nm ++ ".png") =
        some (setDescription fd c) ∧
      lookupFile (process_one env folder filename).folder filename = none := by
  have hmeta : lookupFile (add_metadata env folder filename c) filename =
      some (setDescription fd c) := by
    rw [lookupFile_add_metadata_self env folder filename c fd h2, h5]
    simp
  simp only [process_one, h1, if_true, h2, h3, h4, hmeta]
  refine ⟨trivial, ?_, ?_⟩
  · exact lookupFile_setFile_self _ _ _
  · rw [lookupFile_setFile_other _ _ _ _ h6]
    exact lookupFile_removeFile_self _ _

/-- C1 witness: the amended theorem applied at the concrete collision
scenario. -/
theorem C1_witness :
    lookupFile (process_one
        ⟨fun _ => some ("a sales chart", 10, 5, 20),
          fun _ => some "sales_chart_q1", fun _ => true⟩
        [("Screenshot 1.png", ⟨1, []⟩), ("sales_chart_q1.png", ⟨2, []⟩)]
        "Screenshot 1.png").folder ("sales_chart_q1" ++ ".png") =
      some (setDescription ⟨1, []⟩ "a sales chart") :=
  (C1_rename_overwrites
    ⟨fun _ => some ("a sales chart", 10, 5, 20),
      fun _ => some "sales_chart_q1", fun _ => true⟩
    [("Screenshot 1.png", ⟨1, []⟩), ("sales_chart_q1.png", ⟨2, []⟩)]
    "Screenshot 1.png" "a sales chart" "sales_chart_q1" ⟨1, []⟩ ⟨2, []⟩ 10 5 20
    (by decide) (by decide) rfl rfl rfl (by decide) (by decide)).2.1

/-- C2 counterexample: a candidate that already carries a non-empty
embedded `Description` tag is reprocessed: the content-extraction and
naming capabilities are both invoked and the file is renamed, instead of
the transaction terminating as `Skipped` with no calls. -/
theorem C2_counterexample :
    (process_one
        ⟨fun _ => some ("new desc", 3, 2, 7), fun _ => some "newname",
          fun _ => true⟩
        [("Screenshot 1.png", ⟨1, [("Description", "old description")]⟩)]
        "Screenshot 1.png").extract_calls = 1 ∧
    (process_one
        ⟨fun _ => some ("new desc", 3, 2, 7), fun _ => some "newname",
          fun _ => true⟩
        [("Screenshot 1.png", ⟨1, [("Description", "old description")]⟩)]
        "Screenshot 1.png").naming_calls = 1 ∧
    (process_one
        ⟨fun _ => some ("new desc", 3, 2, 7), fun _ => some "newname",
          fun _ => true⟩
        [("Screenshot 1.png", ⟨1, [("Description", "old description")]⟩)]
        "Screenshot 1.png").entry =
      some ⟨"Screenshot 1.png", "newname.png", "new desc", 3, 7⟩ := by
  decide

/-- C2 amended: there is no idempotency short-circuit — even when the
candidate carries a non-empty `Description` tag from a previous run, the
content-extraction and naming capabilities are each invoked once and a
processed row is produced. -/
theorem C2_no_idempotency_skip (env : Env) (folder : Folder)
    (filename c nm d : String) (fd : FileData) (pt ct tt : ℕ)
    (h1 : is_screenshot filename = true)
    (h2 : lookupFile folder filename = some fd)
    (_hd : lookupChunk fd.textChunks "Description" = some d)
    (_hne : d ≠ "")
    (h3 : env.extract fd = some (c, pt, ct, tt))
    (h4 : env.getNewName c = some nm) :
    (process_one env folder filename).extract_calls = 1 ∧
      (process_one env folder filename).naming_calls = 1 ∧
      (process_one env folder filename).entry =
        some ⟨filename, nm ++ ".png", c, pt, tt⟩ := by
  have hmeta := lookupFile_add_metadata_self env folder filename c fd h2
  by_cases hm : env.metaSaveOk fd <;>
    simp only [hm, if_true, if_false, Bool.false_eq_true] at hmeta <;>
    simp [process_one, h1, h2, h3, h4, hmeta]

/-- C2 witness: the amended theorem applied at the concrete
already-tagged candidate. -/
theorem C2_witness :
    (process_one
        ⟨fun _ => some ("new desc", 3, 2, 7), fun _ => some "newname",
          fun _ => true⟩
        [("Screenshot 1.png", ⟨1, [("Description", "old description")]⟩)]
        "Screenshot 1.png").extract_calls = 1 :=
  (C2_no_idempotency_skip
    ⟨fun _ => some ("new desc", 3, 2, 7), fun _ => some "newname", fun _ => true⟩
    [("Screenshot 1.png", ⟨1, [("Description", "old description")]⟩)]
    "Screenshot 1.png" "new desc" "newname" "old description"
    ⟨1, [("Description", "old description")]⟩ 3 2 7
    (by decide) (by decide) (by decide) (by decide) rfl rfl).1

/-- C3 counterexample: the metadata write fails (the container still has
no `Description` chunk afterwards), yet the rename still happens: the
file reappears under `better_name.png` with its original, tag-free data,
and a processed row is emitted. -/
theorem C3_counterexample :
    (process_one
        ⟨fun _ => some ("desc", 1, 1, 2), fun _ => some "better_name",
          fun _ => false⟩
        [("Screenshot 1.png", ⟨1, []⟩)] "Screenshot 1.png").entry =
      some ⟨"Screenshot 1.png", "better_name.png", "desc", 1, 2⟩ ∧
    lookupFile (process_one
        ⟨fun _ => some ("desc", 1, 1, 2), fun _ => some "better_name",
          fun _ => false⟩
        [("Screenshot 1.png", ⟨1, []⟩)] "Screenshot 1.png").folder
      "better_name.png" = some ⟨1, []⟩ := by
  decide

/-- C3 amended: the rename is performed whenever content extraction and
naming succeed, regardless of the metadata write failing (its exception is
swallowed inside `add_metadata`) and regardless of the description being
empty or not. -/
theorem C3_rename_despite_metadata_failure (env : Env) (folder : Folder)
    (filename c nm : String) (fd : FileData) (pt ct tt : ℕ)
    (h1 : is_screenshot filename = true)
    (h2 : lookupFile folder filename = some fd)
    (h3 : env.extract fd = some (c, pt, ct, tt))
    (h4 : env.getNewName c = some nm)
    (h5 : env.metaSaveOk fd = false)
    (h6 : filename ≠ nm ++ ".png") :
    (process_one env folder filename).entry =
        some ⟨filename, nm ++ ".png", c, pt, tt⟩ ∧
      lookupFile (process_one env folder filename).folder (nm ++ ".png") =
        some fd ∧
      lookupFile (process_one env folder filename).folder filename = none := by
  have hmeta : lookupFile (add_metadata env folder filename c) filename =
      some fd := by
    rw [lookupFile_add_metadata_self env folder filename c fd h2, h5]
    simp
  simp only [process_one, h1, if_true, h2, h3, h4, hmeta]
  refine ⟨trivial, ?_, ?_⟩
  · exact lookupFile_setFile_self _ _ _
  · rw [lookupFile_setFile_other _ _ _ _ h6]
    exact lookupFile_removeFile_self _ _

/-- C3 witness: the amended theorem applied at the concrete
failing-metadata scenario. -/
theorem C3_witness :
    lookupFile (process_one
        ⟨fun _ => some ("desc", 1, 1, 2), fun _ => some "better_name",
          fun _ => false⟩
        [("Screenshot 1.png", ⟨1, []⟩)] "Screenshot 1.png").folder
      ("better_name" ++ ".png") = some ⟨1, []⟩ :=
  (C3_rename_despite_metadata_failure
    ⟨fun _ => some ("desc", 1, 1, 2), fun _ => some "better_name",
      fun _ => false⟩
    [("Screenshot 1.png", ⟨1, []⟩)] "Screenshot 1.png" "desc" "better_name"
    ⟨1, []⟩ 1 1 2 (by decide) (by decide) rfl rfl rfl (by decide)).2.1

/-- C4 counterexample: the metadata-embedding stage fails (the env's save
oracle reports failure), which is a stage before the rename, yet the
original file does NOT remain at its original path: it has been renamed
away. -/
theorem C4_counterexample :
    lookupFile (process_one
        ⟨fun _ => some ("contents", 2, 2, 4), fun _ => some "renamed",
          fun _ => false⟩
        [("Screen Shot 5.png", ⟨7, []⟩)] "Screen Shot 5.png").folder
      "Screen Shot 5.png" = none ∧
    lookupFile (process_one
        ⟨fun _ => some ("contents", 2, 2, 4), fun _ => some "renamed",
          fun _ => false⟩
        [("Screen Shot 5.png", ⟨7, []⟩)] "Screen Shot 5.png").folder
      "renamed.png" = some ⟨7, []⟩ := by
  decide

/-- C4 amended: when content extraction or naming fails, the folder is
left exactly as it was (original path, original data) and no row is
appended; a metadata-write failure, by contrast, does not stop the
rename. -/
theorem C4_early_failure_leaves_folder_unchanged (env : Env) (folder : Folder)
    (filename : String) (fd : FileData)
    (h1 : is_screenshot filename = true)
    (h2 : lookupFile folder filename = some fd)
    (h3 : env.extract fd = none ∨
      ∃ c pt ct tt, env.extract fd = some (c, pt, ct, tt) ∧
        env.getNewName c = none) :
    (process_one env folder filename).folder = folder ∧
      (process_one env folder filename).entry = none := by
  rcases h3 with h3 | ⟨c, pt, ct, tt, h3, h4⟩
  · simp [process_one, h1, h2, h3]
  · simp [process_one, h1, h2, h3, h4]

/-- C4 witness: the amended theorem applied to a concrete candidate whose
content extraction raises. -/
theorem C4_witness :
    (process_one ⟨fun _ => none, fun _ => some "x", fun _ => true⟩
        [("Screen Shot 5.png", ⟨7, []⟩)] "Screen Shot 5.png").folder =
      [("Screen Shot 5.png", ⟨7, []⟩)] :=
  (C4_early_failure_leaves_folder_unchanged
    ⟨fun _ => none, fun _ => some "x", fun _ => true⟩
    [("Screen Shot 5.png", ⟨7, []⟩)] "Screen Shot 5.png" ⟨7, []⟩
    (by decide) (by decide) (Or.inl rfl)).1

/-- C9: after a successful `add_metadata(path, s)`, reading the
`Description` tag of the container at that path returns exactly `s`. -/
theorem C9_description_roundtrip (env : Env) (folder : Folder)
    (path s : String) (fd : FileData)
    (h1 : lookupFile folder path = some fd)
    (h2 : env.metaSaveOk fd = true)
    (_h3 : s ≠ "") :
    read_description (add_metadata env folder path s) path = some s := by
  unfold read_description
  rw [lookupFile_add_metadata_self env folder path s fd h1, h2]
  simp [setDescription, lookupChunk]

/-- C9 witness: the round-trip theorem applied at a concrete container and
string (one containing the delimiter-like substring). -/
theorem C9_witness :
    read_description
      (add_metadata ⟨fun _ => none, fun _ => none, fun _ => true⟩
        [("shot.png", ⟨3, []⟩)] "shot.png" "a: b, \"quoted\" text")
      "shot.png" = some "a: b, \"quoted\" text" :=
  C9_description_roundtrip ⟨fun _ => none, fun _ => none, fun _ => true⟩
    [("shot.png", ⟨3, []⟩)] "shot.png" "a: b, \"quoted\" text" ⟨3, []⟩
    (by decide) rfl (by decide)

/-- C10 witness: the theorem applied at 1920×1080 and a concrete batch. -/
theorem C10_witness :
    (0 : ℤ) < 1920 ∧ 0 ≤ (estimate_costs_and_savings [((1920 : ℤ), (1080 : ℤ)), (512, 512)]).2.2 :=
  ⟨by decide,
    (C10_savings_nonneg 1920 1080 (by decide) (by decide)
      [((1920 : ℤ), (1080 : ℤ)), (512, 512)] (by decide)).2.2.2.2⟩

end Holmes
